import Mathlib

/-!
Verification of the data-derivation pipeline of the SIA analytics dashboard.

Shallow embedding of the repository's derivation logic:
* `src/pages/Module1_Flight_Performance.py` — `prepare_flight_data` (fuel
  simulation over a seeded numpy RNG), CLI entry point.
* `src/pages/Module2_Customer_Experience.py` — `map_satisfaction`,
  `distance_bucket`, the key-drivers correlation selection, KPI rates,
  CLI entry point.

Tables are embedded as Lean lists of row structures (row-oriented) or as
association lists of columns (column-oriented, for the column-presence
logic).  Machine floats are embedded as `ℚ`; the numpy global RNG is an
explicit state (seed and stream position) with a concrete full-range
pseudo-random stream standing in for the Mersenne twister — the only
facts used about it are the ones numpy documents for
`uniform(lo, hi, n)` after `seed(42)`: the draws are a function of the
seed alone and land in `[lo, hi)`.
-/

/-- One row of the Module 2 (customer experience) frame.  The raw frame
has no `satisfaction_score` column, so the field is an `Option`;
`map_satisfaction` fills it. -/
structure M2Row where
  flightDistance : ℚ
  satisfaction : String
  satisfaction_score : Option ℚ

/-- The fixed satisfaction lookup table
(`Module2_Customer_Experience.py` lines 30–38). -/
def satisfaction_mapping : List (String × ℚ) :=
  [("very dissatisfied", 1),
   ("dissatisfied", 2),
   ("neutral or dissatisfied", 3),
   ("neutral", 3),
   ("neutral or satisfied", 4),
   ("satisfied", 4),
   ("very satisfied", 5)]

/-- Embedding of `map_satisfaction` (`Module2_Customer_Experience.py`
lines 26–41): copy the frame, lower-case the `satisfaction` column, and
add `satisfaction_score` as `satisfaction.map(mapping).fillna(3)`. -/
def map_satisfaction (df : List M2Row) : List M2Row :=
  df.map fun r =>
    { r with
      satisfaction := r.satisfaction.toLower,
      satisfaction_score :=
        some ((satisfaction_mapping.lookup r.satisfaction.toLower).getD 3) }

/-- Embedding of `distance_bucket` (`Module2_Customer_Experience.py`
lines 44–49). -/
def distance_bucket (km : ℚ) : String :=
  if km < 1500 then "Short-haul"
  else if km < 3500 then "Medium-haul"
  else "Long-haul"

/-- Order of the three buckets, Short < Medium < Long, used to state
monotonicity of `distance_bucket`. -/
def bucketRank (s : String) : Nat :=
  if s = "Short-haul" then 0
  else if s = "Medium-haul" then 1
  else 2

theorem bucketRank_distance_bucket (d : ℚ) :
    bucketRank (distance_bucket d) =
      if d < 1500 then 0 else if d < 3500 then 1 else 2 := by
  unfold distance_bucket
  split_ifs <;> rfl

/-- Claim C4: `map_satisfaction` lower-cases every satisfaction label and
maps it through the fixed lookup (very dissatisfied→1, dissatisfied→2,
neutral→3, neutral or dissatisfied→3, satisfied→4, neutral or
satisfied→4, very satisfied→5); every label not in the lookup (including
the empty string) is assigned score 3. -/
theorem claim_C4 (df : List M2Row) :
    (map_satisfaction df).map M2Row.satisfaction
        = df.map (fun r => r.satisfaction.toLower) ∧
    (map_satisfaction df).map M2Row.satisfaction_score
        = df.map (fun r =>
            some ((satisfaction_mapping.lookup r.satisfaction.toLower).getD 3)) ∧
    satisfaction_mapping.lookup "very dissatisfied" = some 1 ∧
    satisfaction_mapping.lookup "dissatisfied" = some 2 ∧
    satisfaction_mapping.lookup "neutral" = some 3 ∧
    satisfaction_mapping.lookup "neutral or dissatisfied" = some 3 ∧
    satisfaction_mapping.lookup "satisfied" = some 4 ∧
    satisfaction_mapping.lookup "neutral or satisfied" = some 4 ∧
    satisfaction_mapping.lookup "very satisfied" = some 5 ∧
    satisfaction_mapping.lookup "" = none ∧
    List.Forall₂
      (fun r o => satisfaction_mapping.lookup r.satisfaction.toLower = none →
        o.satisfaction_score = some 3)
      df (map_satisfaction df) := by
  refine ⟨?_, ?_, by decide, by decide, by decide, by decide, by decide,
          by decide, by decide, by decide, ?_⟩
  · simp [map_satisfaction]
  · simp [map_satisfaction]
  · induction df with
    | nil => exact List.Forall₂.nil
    | cons r rs ih =>
        refine List.Forall₂.cons ?_ ih
        intro hnone
        simp [hnone]

/-- Witness for C4 at a concrete unmapped label. -/
theorem claim_C4_witness :
    satisfaction_mapping.lookup "nonsense" = none ∧
    List.Forall₂
      (fun r o => satisfaction_mapping.lookup r.satisfaction.toLower = none →
        o.satisfaction_score = some 3)
      [(⟨0, "NonSense", none⟩ : M2Row)]
      (map_satisfaction [(⟨0, "NonSense", none⟩ : M2Row)]) := by
  constructor
  · decide
  · exact (claim_C4 [(⟨0, "NonSense", none⟩ : M2Row)]).2.2.2.2.2.2.2.2.2.2

/-- Claim C5: `distance_bucket` maps km < 1500 to Short-haul,
1500 ≤ km < 3500 to Medium-haul, km ≥ 3500 to Long-haul; boundary values
belong upward: 1500 is Medium-haul and 3500 is Long-haul. -/
theorem claim_C5 (km : ℚ) :
    (km < 1500 → distance_bucket km = "Short-haul") ∧
    (1500 ≤ km → km < 3500 → distance_bucket km = "Medium-haul") ∧
    (3500 ≤ km → distance_bucket km = "Long-haul") ∧
    distance_bucket 1500 = "Medium-haul" ∧
    distance_bucket 3500 = "Long-haul" := by
  refine ⟨?_, ?_, ?_, ?_, ?_⟩
  · intro h; simp [distance_bucket, h]
  · intro h1 h2; simp [distance_bucket, not_lt.mpr h1, h2]
  · intro h
    have h1 : ¬ km < 1500 := not_lt.mpr (by linarith)
    have h2 : ¬ km < 3500 := not_lt.mpr h
    simp [distance_bucket, h1, h2]
  · norm_num [distance_bucket]
  · norm_num [distance_bucket]

/-- Witness for C5 at km = 1000. -/
theorem claim_C5_witness :
    (1000 : ℚ) < 1500 ∧ distance_bucket 1000 = "Short-haul" :=
  ⟨by norm_num, (claim_C5 1000).1 (by norm_num)⟩

/-- Claim C6: `distance_bucket` always returns one of the three labels,
and is monotone: a smaller distance never gets a larger bucket. -/
theorem claim_C6 (d1 d2 : ℚ) (h : d1 ≤ d2) :
    distance_bucket d1 ∈ (["Short-haul", "Medium-haul", "Long-haul"] : List String) ∧
    bucketRank (distance_bucket d1) ≤ bucketRank (distance_bucket d2) := by
  constructor
  · unfold distance_bucket
    split_ifs <;> simp
  · rw [bucketRank_distance_bucket, bucketRank_distance_bucket]
    split_ifs <;> linarith

/-- Witness for C6 at d1 = 1000, d2 = 4000. -/
theorem claim_C6_witness :
    (1000 : ℚ) ≤ 4000 ∧
    (distance_bucket 1000 ∈ (["Short-haul", "Medium-haul", "Long-haul"] : List String) ∧
     bucketRank (distance_bucket 1000) ≤ bucketRank (distance_bucket 4000)) :=
  ⟨by norm_num, claim_C6 1000 4000 (by norm_num)⟩

/-- One row of the Module 1 (flight performance) frame.  The raw frame
has no fuel column; `prepare_flight_data` fills it. -/
structure F1Row where
  flightDistance : ℚ
  estimatedFuel : Option ℚ

/-- State of the numpy global random generator: the last seed set and
the position in the stream drawn from that seed. -/
structure NpRandomState where
  seed : Nat
  pos : Nat

/-- Embedding of `np.random.seed`: resets the global generator to the
start of the stream of the given seed, discarding the previous state. -/
def np_seed (n : Nat) (_g : NpRandomState) : NpRandomState := ⟨n, 0⟩

/-- One 64-bit step of the pseudo-random stream standing in for numpy's
generator (a linear congruential step; the only properties used are
determinism in (seed, position) and the range of `unitDraw`). -/
def lcgStep (s : Nat) : Nat :=
  (6364136223846793005 * s + 1442695040888963407) % 18446744073709551616

/-- Iterated generator stream: state after `i+1` steps from `seed`. -/
def lcgIter (seed : Nat) : Nat → Nat
  | 0 => lcgStep seed
  | i + 1 => lcgStep (lcgIter seed i)

/-- Draw number `i` of the unit-interval stream of `seed`, a rational in
`[0, 1)` (53-bit mantissa, as numpy's doubles). -/
def unitDraw (seed i : Nat) : ℚ :=
  ((lcgIter seed i % 9007199254740992 : Nat) : ℚ) / 9007199254740992

/-- Embedding of `np.random.uniform(lo, hi, size=n)` on the explicit
generator state: `n` draws in `[lo, hi)` taken at the current stream
position, which advances by `n`. -/
def np_uniform (lo hi : ℚ) (n : Nat) (g : NpRandomState) :
    List ℚ × NpRandomState :=
  ((List.range n).map (fun i => lo + (hi - lo) * unitDraw g.seed (g.pos + i)),
   ⟨g.seed, g.pos + n⟩)

/-- `BASE_FUEL_RATE = 0.05` (`Module1_Flight_Performance.py` line 37). -/
def BASE_FUEL_RATE : ℚ := 5 / 100

/-- The fuel-column assignment (`Module1_Flight_Performance.py` lines
40–44): each row receives `Flight Distance * BASE_FUEL_RATE * jitter`,
row `i` paired with draw `i`. -/
def augmentFuel (rows : List F1Row) (js : List ℚ) : List F1Row :=
  (rows.zip js).map fun rj =>
    { flightDistance := rj.1.flightDistance,
      estimatedFuel := some (rj.1.flightDistance * BASE_FUEL_RATE * rj.2) }

/-- Embedding of `prepare_flight_data` (`Module1_Flight_Performance.py`
lines 26–46) as a function of the loaded table (the result of
`load_data()`) and the explicit numpy generator state: returns `none`
when the table is absent or empty, otherwise seeds the generator with 42
and appends the simulated fuel column. -/
def prepare_flight_data (g : NpRandomState) (df : Option (List F1Row)) :
    Option (List F1Row) × NpRandomState :=
  match df with
  | none => (none, g)
  | some rows =>
    if rows.isEmpty then (none, g)
    else
      let g1 := np_seed 42 g
      let p := np_uniform (9/10) (11/10) rows.length g1
      (some (augmentFuel rows p.1), p.2)

theorem unitDraw_nonneg (seed i : Nat) : 0 ≤ unitDraw seed i := by
  unfold unitDraw
  positivity

theorem unitDraw_lt_one (seed i : Nat) : unitDraw seed i < 1 := by
  unfold unitDraw
  rw [div_lt_one (by norm_num)]
  have h : lcgIter seed i % 9007199254740992 < 9007199254740992 :=
    Nat.mod_lt _ (by norm_num)
  exact_mod_cast h

/-- Every draw of `np_uniform (9/10) (11/10)` lies in `[9/10, 11/10)`. -/
theorem np_uniform_mem_range (n : Nat) (g : NpRandomState) (j : ℚ)
    (hj : j ∈ (np_uniform (9/10) (11/10) n g).1) :
    9/10 ≤ j ∧ j ≤ 11/10 := by
  unfold np_uniform at hj
  simp only [List.mem_map, List.mem_range] at hj
  obtain ⟨i, -, rfl⟩ := hj
  have h0 := unitDraw_nonneg g.seed (g.pos + i)
  have h1 := unitDraw_lt_one g.seed (g.pos + i)
  constructor <;> nlinarith

/-- Claim C1: `prepare_flight_data` returns the explicit empty indicator
`none` exactly when the loaded table is absent or has zero rows; for
every non-empty table it returns an augmented table instead. -/
theorem claim_C1 (g : NpRandomState) (df : Option (List F1Row)) :
    (prepare_flight_data g df).1 = none ↔ (df = none ∨ df = some []) := by
  match df with
  | none => simp [prepare_flight_data]
  | some rows =>
    cases rows with
    | nil => simp [prepare_flight_data]
    | cons r rs => simp [prepare_flight_data]

/-- Claim C2: `prepare_flight_data` is deterministic under the fixed
seed 42: for a fixed loaded table, the returned augmented table (fuel
values included) is the same whatever the incoming state of the global
random generator — two repeated calls yield identical fuel values. -/
theorem claim_C2 (g1 g2 : NpRandomState) (df : Option (List F1Row)) :
    (prepare_flight_data g1 df).1 = (prepare_flight_data g2 df).1 := by
  match df with
  | none => rfl
  | some rows =>
    by_cases h : rows.isEmpty <;>
      simp [prepare_flight_data, h, np_uniform, np_seed]

/-- Pointwise description of `augmentFuel` through `List.Forall₂`, for
any draw list that is long enough and bounded. -/
theorem augmentFuel_forall2 (Q : ℚ → Prop)
    (hQ : ∀ b, Q b → 9/10 ≤ b ∧ b ≤ 11/10) :
    ∀ (xs : List F1Row) (ys : List ℚ), xs.length ≤ ys.length →
      (∀ b ∈ ys, Q b) →
      List.Forall₂ (fun r o =>
        o.flightDistance = r.flightDistance ∧
        ∃ j : ℚ, 9/10 ≤ j ∧ j ≤ 11/10 ∧
          o.estimatedFuel = some (r.flightDistance * BASE_FUEL_RATE * j))
        xs (augmentFuel xs ys) := by
  intro xs
  induction xs with
  | nil =>
      intro ys _ _
      simp [augmentFuel]
  | cons x xs ih =>
      intro ys hlen hq
      cases ys with
      | nil => simp at hlen
      | cons y ys =>
          simp only [augmentFuel, List.zip_cons_cons, List.map_cons]
          refine List.Forall₂.cons ?_ (ih ys (by simpa using hlen)
            (fun b hb => hq b (List.mem_cons_of_mem _ hb)))
          have hy := hQ y (hq y (List.mem_cons_self _ _))
          exact ⟨rfl, y, hy.1, hy.2, rfl⟩

/-- Claim C3: on every non-empty loaded table, `prepare_flight_data`
returns an augmented table in which each row's fuel value equals
`Flight Distance * 0.05 * j` for a jitter `j ∈ [0.9, 1.1]`; in
particular a row with distance 1000 gets a fuel value in `[45, 55]`. -/
theorem claim_C3 (g : NpRandomState) (rows : List F1Row) (h : rows ≠ []) :
    ∃ out, (prepare_flight_data g (some rows)).1 = some out ∧
      List.Forall₂ (fun r o =>
        o.flightDistance = r.flightDistance ∧
        ∃ j : ℚ, 9/10 ≤ j ∧ j ≤ 11/10 ∧
          o.estimatedFuel = some (r.flightDistance * BASE_FUEL_RATE * j) ∧
          (r.flightDistance = 1000 →
            45 ≤ r.flightDistance * BASE_FUEL_RATE * j ∧
            r.flightDistance * BASE_FUEL_RATE * j ≤ 55))
        rows out := by
  have hemp : rows.isEmpty = false := by
    cases rows with
    | nil => exact absurd rfl h
    | cons r rs => rfl
  refine ⟨augmentFuel rows
    (np_uniform (9/10) (11/10) rows.length (np_seed 42 g)).1, ?_, ?_⟩
  · simp [prepare_flight_data, hemp]
  · have hlen : rows.length ≤
        ((np_uniform (9/10) (11/10) rows.length (np_seed 42 g)).1).length := by
      simp [np_uniform]
    have hbase := augmentFuel_forall2
      (fun b => 9/10 ≤ b ∧ b ≤ 11/10) (fun b hb => hb) rows
      (np_uniform (9/10) (11/10) rows.length (np_seed 42 g)).1 hlen
      (fun b hb => np_uniform_mem_range _ _ b hb)
    refine List.Forall₂.imp ?_ hbase
    rintro r o ⟨hd, j, hj1, hj2, hfuel⟩
    refine ⟨hd, j, hj1, hj2, hfuel, ?_⟩
    intro h1000
    rw [h1000]
    unfold BASE_FUEL_RATE
    constructor <;> nlinarith

/-- Witness for C3: the single-row table with distance 1000. -/
theorem claim_C3_witness :
    ([(⟨1000, none⟩ : F1Row)] ≠ []) ∧
    (∃ out, (prepare_flight_data ⟨0, 0⟩ (some [(⟨1000, none⟩ : F1Row)])).1
        = some out ∧
      List.Forall₂ (fun r o =>
        o.flightDistance = r.flightDistance ∧
        ∃ j : ℚ, 9/10 ≤ j ∧ j ≤ 11/10 ∧
          o.estimatedFuel = some (r.flightDistance * BASE_FUEL_RATE * j) ∧
          (r.flightDistance = 1000 →
            45 ≤ r.flightDistance * BASE_FUEL_RATE * j ∧
            r.flightDistance * BASE_FUEL_RATE * j ≤ 55))
        [(⟨1000, none⟩ : F1Row)] out) :=
  ⟨List.cons_ne_nil _ _,
   claim_C3 ⟨0, 0⟩ [(⟨1000, none⟩ : F1Row)] (List.cons_ne_nil _ _)⟩

/-- Column-oriented view of a frame: an association list from column
name to column values, used for the column-presence logic of the
key-drivers correlation. -/
structure ColTable where
  cols : List (String × List ℚ)

/-- Column-membership test (`c in filtered.columns`). -/
def hasCol (t : ColTable) (c : String) : Bool :=
  (t.cols.map Prod.fst).contains c

/-- The fixed list of service-rating columns
(`Module2_Customer_Experience.py` lines 177–185). -/
def service_cols : List String :=
  ["Seat comfort",
   "Inflight entertainment",
   "Food and drink",
   "On-board service",
   "Cleanliness",
   "Inflight service",
   "Checkin service"]

/-- Column selection `filtered[c]` (empty when absent). -/
def lookupCol (t : ColTable) (c : String) : List ℚ :=
  (t.cols.lookup c).getD []

/-- Insertion step of the ascending-by-value sort (`sort_values()`). -/
def insVal (x : String × ℚ) : List (String × ℚ) → List (String × ℚ)
  | [] => [x]
  | y :: ys => if x.2 ≤ y.2 then x :: y :: ys else y :: insVal x ys

/-- Ascending sort by value, embedding `Series.sort_values()`. -/
def sortByVal : List (String × ℚ) → List (String × ℚ)
  | [] => []
  | x :: xs => insVal x (sortByVal xs)

/-- Embedding of the key-drivers correlation series
(`Module2_Customer_Experience.py` lines 187–194): restrict the fixed
`service_cols` to the columns present, take the correlation of each
selected column with `satisfaction_score`, drop the `satisfaction_score`
entry itself and sort by value.  The numeric Pearson kernel is a
parameter: the selection logic is independent of it. -/
def key_drivers_corr (kernel : List ℚ → List ℚ → ℚ) (t : ColTable) :
    List (String × ℚ) :=
  let available := service_cols.filter (fun c => hasCol t c)
  let selected := available ++ ["satisfaction_score"]
  let scores := lookupCol t "satisfaction_score"
  let series := selected.map (fun c => (c, kernel (lookupCol t c) scores))
  sortByVal (series.filter (fun p => p.1 != "satisfaction_score"))

theorem insVal_perm (x : String × ℚ) (l : List (String × ℚ)) :
    (insVal x l).Perm (x :: l) := by
  induction l with
  | nil => exact List.Perm.refl _
  | cons y ys ih =>
      by_cases h : x.2 ≤ y.2
      · simp only [insVal, if_pos h]
        exact List.Perm.refl _
      · simp only [insVal, if_neg h]
        exact (ih.cons y).trans (List.Perm.swap x y ys)

theorem sortByVal_perm (l : List (String × ℚ)) : (sortByVal l).Perm l := by
  induction l with
  | nil => exact List.Perm.refl _
  | cons x xs ih => exact (insVal_perm x (sortByVal xs)).trans (ih.cons x)

theorem service_cols_ne_score (c : String) (hc : c ∈ service_cols) :
    (c != "satisfaction_score") = true := by
  fin_cases hc <;> decide

/-- Claim C7: the key-drivers correlation restricts the fixed
service-rating column list to the columns present in the table, silently
skipping absent ones; when every service-rating column is missing the
result is the empty mapping, not an error. -/
theorem claim_C7 (kernel : List ℚ → List ℚ → ℚ) (t : ColTable) :
    ((key_drivers_corr kernel t).map Prod.fst).Perm
      (service_cols.filter (fun c => hasCol t c)) ∧
    ((∀ c ∈ service_cols, hasCol t c = false) →
      key_drivers_corr kernel t = []) := by
  have hser : ∀ (kernel' : List ℚ → List ℚ → ℚ) (t' : ColTable),
      ((service_cols.filter (fun c => hasCol t' c)).map
          (fun c => (c, kernel' (lookupCol t' c) (lookupCol t' "satisfaction_score")))
        ++ ["satisfaction_score"].map
          (fun c => (c, kernel' (lookupCol t' c) (lookupCol t' "satisfaction_score")))).filter
            (fun p => p.1 != "satisfaction_score")
        = (service_cols.filter (fun c => hasCol t' c)).map
            (fun c => (c, kernel' (lookupCol t' c) (lookupCol t' "satisfaction_score"))) := by
    intro kernel' t'
    rw [List.filter_append]
    have h1 : ((service_cols.filter (fun c => hasCol t' c)).map
        (fun c => (c, kernel' (lookupCol t' c)
          (lookupCol t' "satisfaction_score")))).filter
            (fun p => p.1 != "satisfaction_score")
        = (service_cols.filter (fun c => hasCol t' c)).map
            (fun c => (c, kernel' (lookupCol t' c)
              (lookupCol t' "satisfaction_score"))) := by
      apply List.filter_eq_self.mpr
      intro p hp
      simp only [List.mem_map, List.mem_filter] at hp
      obtain ⟨c, ⟨hcs, -⟩, rfl⟩ := hp
      exact service_cols_ne_score c hcs
    rw [h1]
    simp
  constructor
  · unfold key_drivers_corr
    dsimp only
    rw [List.map_append, hser kernel t]
    refine ((sortByVal_perm _).map Prod.fst).trans ?_
    rw [List.map_map]
    have : (Prod.fst ∘ fun c =>
        (c, kernel (lookupCol t c) (lookupCol t "satisfaction_score")))
        = fun c => c := rfl
    rw [this]
    simp
  · intro hall
    have hav : service_cols.filter (fun c => hasCol t c) = [] := by
      rw [List.filter_eq_nil_iff]
      intro c hc
      simp [hall c hc]
    unfold key_drivers_corr
    rw [hav]
    simp [sortByVal]

/-- Witness for C7: a table carrying only the score column. -/
theorem claim_C7_witness :
    (∀ c ∈ service_cols,
      hasCol ⟨[("satisfaction_score", [1, 2, 3])]⟩ c = false) ∧
    key_drivers_corr (fun _ _ => 0) ⟨[("satisfaction_score", [1, 2, 3])]⟩ = [] :=
  ⟨by decide,
   (claim_C7 (fun _ _ => 0) ⟨[("satisfaction_score", [1, 2, 3])]⟩).2 (by decide)⟩

/-- Arithmetic mean of a column (`Series.mean()`).  The mean of an empty
column is left at the junk value `0/0 = 0`; claims about means always
assume a non-empty table, since pandas produces NaN there. -/
def meanQ (l : List ℚ) : ℚ := l.sum / (l.length : ℚ)

/-- The satisfaction-rate KPI as the UI computes it
(`Module2_Customer_Experience.py` line 130):
`(filtered['satisfaction_score'] >= 4).mean() * 100`, the boolean column
embedded as a 0/1 indicator column. -/
def satisfaction_rate_ui (scores : List ℚ) : ℚ :=
  meanQ (scores.map (fun s => if 4 ≤ s then (1 : ℚ) else 0)) * 100

/-- The satisfaction-rate figure as the CLI prints it
(`Module2_Customer_Experience.py` line 220):
`(df['satisfaction_score'] >= 4).mean() * 100`. -/
def satisfaction_rate_cli (scores : List ℚ) : ℚ :=
  meanQ (scores.map (fun s => if 4 ≤ s then (1 : ℚ) else 0)) * 100

theorem sum_indicator_eq_count (scores : List ℚ) :
    (scores.map (fun s => if 4 ≤ s then (1 : ℚ) else 0)).sum
      = ((scores.filter (fun s => 4 ≤ s)).length : ℚ) := by
  induction scores with
  | nil => simp
  | cons x xs ih =>
      by_cases h : (4 : ℚ) ≤ x
      · simp only [List.map_cons, List.sum_cons, if_pos h, ih,
          List.filter_cons, decide_eq_true h, if_pos, List.length_cons]
        push_cast
        ring
      · simp [List.filter_cons, h, ih]

/-- Claim C10: the satisfaction rate equals 100 times the fraction of
rows whose score is at least 4, and the UI and the CLI compute it by the
same rule, so both report the same value on the same scored column.
(The non-emptiness hypothesis reflects that pandas returns NaN for the
mean of an empty column, which `ℚ` does not represent.) -/
theorem claim_C10 (scores : List ℚ) (h : scores ≠ []) :
    satisfaction_rate_ui scores
        = 100 * ((scores.filter (fun s => 4 ≤ s)).length : ℚ)
            / (scores.length : ℚ) ∧
    satisfaction_rate_ui scores = satisfaction_rate_cli scores := by
  constructor
  · unfold satisfaction_rate_ui meanQ
    rw [sum_indicator_eq_count, List.length_map]
    ring
  · rfl

/-- Witness for C10 on the two-row score column `[5, 1]`. -/
theorem claim_C10_witness :
    ([(5 : ℚ), 1] ≠ []) ∧
    (satisfaction_rate_ui [(5 : ℚ), 1]
        = 100 * ((([(5 : ℚ), 1]).filter (fun s => 4 ≤ s)).length : ℚ)
            / (([(5 : ℚ), 1] : List ℚ).length : ℚ) ∧
     satisfaction_rate_ui [(5 : ℚ), 1] = satisfaction_rate_cli [(5 : ℚ), 1]) :=
  ⟨List.cons_ne_nil _ _, claim_C10 [(5 : ℚ), 1] (List.cons_ne_nil _ _)⟩

theorem heap_get_append_left {α : Type} :
    ∀ (l t : List α) (i : Nat), i < l.length → (l ++ t)[i]? = l[i]? := by
  intro l
  induction l with
  | nil => intro t i hi; simp at hi
  | cons x xs ih =>
      intro t i hi
      cases i with
      | zero => simp
      | succ n =>
          simp only [List.cons_append, List.getElem?_cons_succ]
          exact ih t n (by simpa using hi)

theorem heap_set_append_last {α : Type} :
    ∀ (l : List α) (v w : α), (l ++ [v]).set l.length w = l ++ [w] := by
  intro l
  induction l with
  | nil => intro v w; rfl
  | cons x xs ih =>
      intro v w
      show x :: (xs ++ [v]).set xs.length w = x :: (xs ++ [w])
      rw [ih]

/-- Modelled from the spec: `load_data` — the record-loading
collaborator (`services/data_service.py`) is not under `src/`.  Per
spec §5–§6 it "returns a record table or an empty/missing result" and
"each UI or CLI invocation reloads and re-derives fresh", so a
successful load allocates a fresh frame on the heap and an absent
dataset touches nothing. -/
def load_data_st (ds : Option (List F1Row)) (h : List (List F1Row)) :
    List (List F1Row) × Option (Nat × List F1Row) :=
  match ds with
  | none => (h, none)
  | some rows => (h ++ [rows], some (h.length, rows))

/-- Heap rendering of `prepare_flight_data`
(`Module1_Flight_Performance.py` lines 26–46): load the dataset (a
fresh frame, via the spec-modelled `load_data_st`), return `none` on an
absent or empty frame, otherwise assign the fuel column in place on the
loaded frame — the source mutates the frame `load_data()` returned, not
any caller-held table. -/
def prepare_flight_data_st (g : NpRandomState) (ds : Option (List F1Row))
    (h : List (List F1Row)) :
    List (List F1Row) × Option Nat × NpRandomState :=
  match load_data_st ds h with
  | (h1, none) => (h1, none, g)
  | (h1, some (r, rows)) =>
      if rows.isEmpty then (h1, none, g)
      else
        let g1 := np_seed 42 g
        let p := np_uniform (9/10) (11/10) rows.length g1
        (h1.set r (augmentFuel rows p.1), some r, p.2)

/-- Heap rendering of `map_satisfaction`
(`Module2_Customer_Experience.py` lines 26–41): `df.copy()` allocates a
fresh frame, the two column assignments then mutate that fresh frame in
place, and the reference to the copy is returned; the caller's frame is
never written. -/
def map_satisfaction_st (h : List (List M2Row)) (r : Nat) :
    List (List M2Row) × Nat :=
  let df := (h[r]?).getD []
  let h1 := h ++ [df]
  (h1.set h.length (map_satisfaction df), h.length)

/-- Claim C8: neither pipeline operation mutates any table the caller
already holds: every heap reference that existed before the call reads
the same afterwards — `prepare_flight_data` only writes the frame its
own load allocated, and `map_satisfaction` only writes the copy it
allocated. -/
theorem claim_C8 (g : NpRandomState) (ds : Option (List F1Row))
    (h1 : List (List F1Row)) (h2 : List (List M2Row)) (r i j : Nat)
    (hi : i < h1.length) (hj : j < h2.length) :
    ((prepare_flight_data_st g ds h1).1)[i]? = h1[i]? ∧
    ((map_satisfaction_st h2 r).1)[j]? = h2[j]? := by
  constructor
  · cases ds with
    | none => rfl
    | some rows =>
        have hform : (prepare_flight_data_st g (some rows) h1).1
            = if rows.isEmpty then h1 ++ [rows]
              else (h1 ++ [rows]).set h1.length
                (augmentFuel rows
                  (np_uniform (9/10) (11/10) rows.length (np_seed 42 g)).1) := by
          unfold prepare_flight_data_st load_data_st
          by_cases hemp : rows.isEmpty <;> simp [hemp]
        rw [hform]
        by_cases hemp : rows.isEmpty
        · rw [if_pos hemp, heap_get_append_left _ _ _ hi]
        · rw [if_neg hemp, heap_set_append_last, heap_get_append_left _ _ _ hi]
  · show ((h2 ++ [(h2[r]?).getD []]).set h2.length
        (map_satisfaction ((h2[r]?).getD [])))[j]? = h2[j]?
    rw [heap_set_append_last, heap_get_append_left _ _ _ hj]

/-- Witness for C8 on one-frame heaps. -/
theorem claim_C8_witness :
    ((0 : Nat) < ([[(⟨7, none⟩ : F1Row)]] : List (List F1Row)).length) ∧
    ((0 : Nat) < ([[(⟨1, "x", none⟩ : M2Row)]] : List (List M2Row)).length) ∧
    (((prepare_flight_data_st ⟨0, 0⟩ (some [(⟨100, none⟩ : F1Row)])
          [[(⟨7, none⟩ : F1Row)]]).1)[0]?
        = ([[(⟨7, none⟩ : F1Row)]] : List (List F1Row))[0]? ∧
     ((map_satisfaction_st [[(⟨1, "x", none⟩ : M2Row)]] 0).1)[0]?
        = ([[(⟨1, "x", none⟩ : M2Row)]] : List (List M2Row))[0]?) :=
  ⟨by decide, by decide,
   claim_C8 ⟨0, 0⟩ (some [(⟨100, none⟩ : F1Row)])
     [[(⟨7, none⟩ : F1Row)]] [[(⟨1, "x", none⟩ : M2Row)]] 0 0 0
     (by decide) (by decide)⟩

/-- Outcome of a CLI run that terminates normally: either the handled
error message printed on a missing dataset, or a summary report. -/
inductive CliOutcome where
  | errorMessage (msg : String)
  | report (passengers : Nat) (stats : List ℚ)

/-- The `map_satisfaction(df)` call as made directly on the raw result
of `load_data()` (`Module2_Customer_Experience.py` lines 210–211):
when the loaded value is `None`, `None.copy()` raises
`AttributeError`, modelled as an `Except.error` (an escaping
exception, distinct from a printed message). -/
def map_satisfaction_on_load (df : Option (List M2Row)) :
    Except String (List M2Row) :=
  match df with
  | none => Except.error "AttributeError: NoneType object has no attribute copy"
  | some rows => Except.ok (map_satisfaction rows)

/-- Embedding of `run_customer_experience_cli`
(`Module2_Customer_Experience.py` lines 207–227) as a function of the
loaded dataset: the loaded value goes straight into `map_satisfaction`
with no None/empty check, then the passenger count, mean score and
satisfaction rate are printed. -/
def run_customer_experience_cli (ds : Option (List M2Row)) :
    Except String CliOutcome :=
  match map_satisfaction_on_load ds with
  | Except.error e => Except.error e
  | Except.ok df =>
      let scores := df.map (fun r => r.satisfaction_score.getD 0)
      Except.ok (CliOutcome.report df.length
        [meanQ scores, satisfaction_rate_cli scores])

/-- Embedding of `run_flight_performance_cli`
(`Module1_Flight_Performance.py` lines 192–229): `prepare_flight_data`
runs first, a `None` result short-circuits into the printed error
message, otherwise the summary statistics are printed. -/
def run_flight_performance_cli (g : NpRandomState)
    (ds : Option (List F1Row)) : Except String CliOutcome :=
  match (prepare_flight_data g ds).1 with
  | none => Except.ok (CliOutcome.errorMessage "ERROR: Unable to load dataset.")
  | some df =>
      Except.ok (CliOutcome.report df.length
        [meanQ (df.map F1Row.flightDistance),
         meanQ (df.map (fun r => r.estimatedFuel.getD 0))])

/-- Claim C9 is refuted by the code of the Module 2 CLI: on a missing
dataset the Module 1 CLI short-circuits with its printed error message,
but the Module 2 CLI feeds `None` straight into `map_satisfaction`, so
the `AttributeError` escapes as an exception; and on an empty dataset
the Module 2 CLI prints an ordinary (NaN-laden) report, not an error.
This theorem evaluates both CLI entry points at the failing input. -/
theorem claim_C9_bug :
    run_customer_experience_cli none
        = Except.error "AttributeError: NoneType object has no attribute copy" ∧
    (∀ g : NpRandomState, run_flight_performance_cli g none
        = Except.ok (CliOutcome.errorMessage "ERROR: Unable to load dataset.")) ∧
    run_customer_experience_cli (some [])
        = Except.ok (CliOutcome.report 0 [meanQ [], satisfaction_rate_cli []]) :=
  ⟨rfl, fun _ => rfl, rfl⟩
